import Mathlib

/-!
Verification of the SoundCloud search API server (Express handler in
server.js).  The JavaScript handler is shallowly embedded: JS string
truthiness is modelled on `Option String` (null/undefined/"" are falsy),
JS numbers occurring as track durations are modelled as `Int`, the
soundcloud-scraper calls `client.search` and `client.getSongInfo` are
modelled as explicit function parameters returning `Except String _`
(the error carries the exception message), and `Promise.all` over
`searchResults.map` is modelled as `List.map` (single-threaded join-all
semantics: each element of the output list is determined by the
corresponding input candidate alone).
-/

/-- A JS author object: `author` with an optional `name` field,
accessed in the source as `author?.name`. -/
structure Author where
  name : Option String
deriving DecidableEq, Repr

/-- A candidate track as returned by `client.search` (server.js uses
`track.title`, `track.url`, `track.author?.name`, `track.thumbnail`,
`track.duration`). -/
structure Track where
  title : Option String
  url : Option String
  author : Option Author
  thumbnail : Option String
  duration : Option Int
deriving DecidableEq, Repr

/-- A detail payload as returned by `client.getSongInfo`. -/
structure SongInfo where
  title : Option String
  url : Option String
  author : Option Author
  thumbnail : Option String
  duration : Option Int
  genre : Option String
  publishedAt : Option String
deriving DecidableEq, Repr

/-- The output record built for each candidate (the object literals in
the map callback of server.js). -/
structure EnrichedTrack where
  title : String
  url : Option String
  author : String
  thumbnail : Option String
  duration_seconds : Int
  genre : String
  publishedAt : String
  fetchError : Bool
  errorMessage : Option String
deriving DecidableEq, Repr

/-- JS string truthiness on an optional string: `null`, `undefined` and
`""` are falsy. -/
def strFalsy : Option String → Bool
  | none => true
  | some s => s = ""

/-- JS `x || d` for a string-valued `x` and string default `d`. -/
def strOr (x : Option String) (d : String) : String :=
  match x with
  | none => d
  | some s => if s = "" then d else s

/-- JS `x || null` for a string-valued `x`. -/
def optOr (x : Option String) : Option String :=
  if strFalsy x then none else x

/-- JS `d ? Math.floor(d / 1000) : 0` for the optional numeric
`duration` field (0, null and undefined are falsy). -/
def durSecs : Option Int → Int
  | none => 0
  | some v => if v = 0 then 0 else Int.fdiv v 1000

/-- The map callback of server.js lines 112-160.  `lookup` models
`client.getSongInfo` (`Except.error msg` models a rejection whose
`err.message` is `msg`).  The `Option Track` input models that an array
element could be null (the `!track` guard). -/
def processTrack (lookup : String → Except String SongInfo)
    (otrack : Option Track) : EnrichedTrack :=
  if strFalsy (otrack.bind (·.url)) then
    -- `if (!track || !track.url)` branch: no lookup, basic info only
    { title := strOr (otrack.bind (·.title)) "Unknown Title (URL missing)"
      url := none
      author := strOr ((otrack.bind (·.author)).bind (·.name)) "Unknown Artist"
      thumbnail := optOr (otrack.bind (·.thumbnail))
      duration_seconds := durSecs (otrack.bind (·.duration))
      genre := "Unknown"
      publishedAt := "Unknown"
      fetchError := true
      errorMessage := some "Missing track URL in search result" }
  else
    match otrack with
    | none =>
      -- unreachable: a null track has a falsy url
      { title := "Unknown Title (URL missing)", url := none
        author := "Unknown Artist", thumbnail := none
        duration_seconds := 0, genre := "Unknown", publishedAt := "Unknown"
        fetchError := true
        errorMessage := some "Missing track URL in search result" }
    | some track =>
      match lookup (strOr track.url "") with
      | Except.ok songInfo =>
        { title := strOr songInfo.title "Unknown Title"
          url := if strFalsy songInfo.url then track.url else songInfo.url
          author := strOr (songInfo.author.bind (·.name)) "Unknown Artist"
          thumbnail := optOr songInfo.thumbnail
          duration_seconds := durSecs songInfo.duration
          genre := strOr songInfo.genre "Unknown"
          publishedAt := strOr songInfo.publishedAt "Unknown"
          fetchError := false
          errorMessage := none }
      | Except.error msg =>
        { title := strOr track.title "Unknown Title (fetch failed)"
          url := optOr track.url
          author := strOr (track.author.bind (·.name)) "Unknown Artist"
          thumbnail := optOr track.thumbnail
          duration_seconds := durSecs track.duration
          genre := "Unknown"
          publishedAt := "Unknown"
          fetchError := true
          errorMessage := some msg }

/-- `const detailedResults = await Promise.all(searchResults.map(...))`:
join-all with per-task error isolation, order preserving. -/
def detailedResults (lookup : String → Except String SongInfo)
    (searchResults : List (Option Track)) : List EnrichedTrack :=
  searchResults.map (processTrack lookup)

/-- A decimal digit, for the `parseInt` model. -/
def isDigitChar (c : Char) : Bool :=
  48 ≤ c.toNat && c.toNat ≤ 57

/-- A whitespace character `parseInt` skips over. -/
def isSpaceChar (c : Char) : Bool :=
  c.toNat = 32 || c.toNat = 9 || c.toNat = 10 || c.toNat = 13 ||
  c.toNat = 11 || c.toNat = 12

/-- JS `s.trim()`: drop whitespace from both ends. -/
def trimJS (s : String) : String :=
  ⟨((s.data.dropWhile isSpaceChar).reverse.dropWhile isSpaceChar).reverse⟩

/-- JS `parseInt(s, 10)`: skip leading whitespace, optional sign, then
the longest prefix of decimal digits; `NaN` (here `none`) when that
prefix is empty. -/
def parseIntJS (s : String) : Option Int :=
  let cs := s.data.dropWhile isSpaceChar
  let sgn : Int := match cs with
    | c :: _ => if c = '-' then -1 else 1
    | [] => 1
  let cs2 := match cs with
    | c :: rest => if c = '-' ∨ c = '+' then rest else cs
    | [] => cs
  let ds := cs2.takeWhile isDigitChar
  if ds = [] then none
  else some (sgn * Int.ofNat (ds.foldl (fun a c => a * 10 + (c.toNat - 48)) 0))

/-- server.js limit normalization (lines 78-84):
`let limit = parseInt(rawLimit, 10); if (isNaN(limit) || limit <= 0)
limit = 10; else if (limit > 50) limit = 50;`.
`rawLimit = none` models an absent query parameter
(`parseInt(undefined, 10)` is `NaN`). -/
def normalizeLimit (rawLimit : Option String) : Int :=
  match rawLimit.bind parseIntJS with
  | none => 10
  | some l => if l ≤ 0 then 10 else if l > 50 then 50 else l

/-- A query-string parameter as Express delivers it: absent, a string,
or something that is not a string (e.g. an array from a repeated
parameter). -/
inductive QueryParam where
  | missing : QueryParam
  | str : String → QueryParam
  | nonString : QueryParam
deriving DecidableEq, Repr

/-- The parts of the incoming request the search route reads:
`req.query.q` and `req.query.limit` (the latter only ever fed to
`parseInt`, so a missing/non-string value is kept as `Option String`). -/
structure Request where
  q : QueryParam
  limit : Option String
deriving DecidableEq, Repr

/-- The JSON body shapes the search route can produce. -/
inductive Body where
  | badRequest : (error : String) → Body
  | success : (query : String) → (requested_limit : Option String) →
      (processed_limit : Int) → (actual_result_count : Nat) →
      (results : List EnrichedTrack) → (message : Option String) → Body
  | serverError : (error : String) → (message : String) → Body
deriving DecidableEq, Repr

/-- The observable outcome of one request: HTTP status, JSON body, and
whether `client.search` was invoked on the way. -/
structure Outcome where
  status : Nat
  body : Body
  searchCalled : Bool
deriving DecidableEq, Repr

/-- The `/search` route handler of server.js (lines 67-186).  `search`
models `client.search(query, "track", limit)`; `lookup` models
`client.getSongInfo`.  An `Except.error` from `search` models the outer
catch. -/
def searchHandler (search : String → Int → Except String (List (Option Track)))
    (lookup : String → Except String SongInfo) (req : Request) : Outcome :=
  match req.q with
  | QueryParam.missing =>
    ⟨400, Body.badRequest "Bad Request: Missing or invalid search query. Please provide a non-empty \"q\" parameter.", false⟩
  | QueryParam.nonString =>
    ⟨400, Body.badRequest "Bad Request: Missing or invalid search query. Please provide a non-empty \"q\" parameter.", false⟩
  | QueryParam.str query =>
    if query = "" ∨ trimJS query = "" then
      ⟨400, Body.badRequest "Bad Request: Missing or invalid search query. Please provide a non-empty \"q\" parameter.", false⟩
    else
      let limit := normalizeLimit req.limit
      match search query limit with
      | Except.error _ =>
        ⟨500, Body.serverError "Internal Server Error"
          "An unexpected error occurred while processing the SoundCloud search.", true⟩
      | Except.ok searchResults =>
        if searchResults.length = 0 then
          ⟨200, Body.success query req.limit limit 0 []
            (some "No tracks found for this query."), true⟩
        else
          let results := detailedResults lookup searchResults
          ⟨200, Body.success query req.limit limit results.length results none, true⟩

/-- The `results` field of a body (empty for non-success bodies). -/
def Body.resultsOf : Body → List EnrichedTrack
  | Body.success _ _ _ _ rs _ => rs
  | _ => []

/-- The `actual_result_count` field of a success body. -/
def Body.countOf : Body → Option Nat
  | Body.success _ _ _ c _ _ => some c
  | _ => none

/-- The `requested_limit` field of a success body. -/
def Body.requestedOf : Body → Option (Option String)
  | Body.success _ rl _ _ _ _ => some rl
  | _ => none

/-- The `processed_limit` field of a success body. -/
def Body.processedOf : Body → Option Int
  | Body.success _ _ pl _ _ _ => some pl
  | _ => none

/-- The `message` field of a success body. -/
def Body.messageOf : Body → Option String
  | Body.success _ _ _ _ _ m => m
  | _ => none

/-- The limit normalization as the spec words it, kept for comparison
with the implementation: absent, unparseable or nonpositive limits get
the default 10, values above the maximum 50 are clamped to 50, anything
else is used as parsed. -/
def claimLimitPolicy (raw : Option String) : Int :=
  match raw with
  | none => 10
  | some s =>
    match parseIntJS s with
    | none => 10
    | some v => if v ≤ 0 then 10 else if v > 50 then 50 else v

/-- The record the claim about failed detail lookups predicts, kept for
comparison with the implementation: the candidate fields with the
success-path defaulting rules, `fetchError` set, and the failure
message attached. -/
def claimFailureRecord (t : Track) (msg : String) : EnrichedTrack :=
  { title := strOr t.title "Unknown Title"
    url := optOr t.url
    author := strOr (t.author.bind (·.name)) "Unknown Artist"
    thumbnail := optOr t.thumbnail
    duration_seconds := durSecs t.duration
    genre := "Unknown"
    publishedAt := "Unknown"
    fetchError := true
    errorMessage := some msg }

/-- C5: whenever `q` is absent, not a string, or trims to the empty
string, the handler answers 400 with an error body and never invokes
the upstream search capability. -/
theorem invalid_query_rejected
    (search : String → Int → Except String (List (Option Track)))
    (lookup : String → Except String SongInfo) (req : Request)
    (h : req.q = QueryParam.missing ∨ req.q = QueryParam.nonString ∨
      ∃ s, req.q = QueryParam.str s ∧ trimJS s = "") :
    (searchHandler search lookup req).status = 400 ∧
    (∃ e, (searchHandler search lookup req).body = Body.badRequest e) ∧
    (searchHandler search lookup req).searchCalled = false := by
  rcases h with h | h | ⟨s, hq, hs⟩
  · simp [searchHandler, h]
  · simp [searchHandler, h]
  · simp [searchHandler, hq, hs]

/-- Witness for C5 at a whitespace-only query. -/
theorem invalid_query_rejected_witness :
    (searchHandler (fun _ _ => Except.ok []) (fun _ => Except.error "e")
      ⟨QueryParam.str "   ", some "3"⟩).status = 400 ∧
    (∃ e, (searchHandler (fun _ _ => Except.ok []) (fun _ => Except.error "e")
      ⟨QueryParam.str "   ", some "3"⟩).body = Body.badRequest e) ∧
    (searchHandler (fun _ _ => Except.ok []) (fun _ => Except.error "e")
      ⟨QueryParam.str "   ", some "3"⟩).searchCalled = false :=
  invalid_query_rejected _ _ _ (Or.inr (Or.inr ⟨"   ", rfl, by decide⟩))

/-- C6: a valid query whose upstream search yields no candidates gets a
200 response with an empty result list, a zero count and an explanatory
message. -/
theorem empty_results_ok
    (search : String → Int → Except String (List (Option Track)))
    (lookup : String → Except String SongInfo) (req : Request) (s : String)
    (hq : req.q = QueryParam.str s) (hv : ¬(s = "" ∨ trimJS s = ""))
    (hs : search s (normalizeLimit req.limit) = Except.ok []) :
    (searchHandler search lookup req).status = 200 ∧
    (searchHandler search lookup req).body =
      Body.success s req.limit (normalizeLimit req.limit) 0 []
        (some "No tracks found for this query.") := by
  simp [searchHandler, hq, hv, hs]

/-- Witness for C6. -/
theorem empty_results_ok_witness :
    (searchHandler (fun _ _ => Except.ok []) (fun _ => Except.error "e")
      ⟨QueryParam.str "lofi", none⟩).status = 200 ∧
    (searchHandler (fun _ _ => Except.ok []) (fun _ => Except.error "e")
      ⟨QueryParam.str "lofi", none⟩).body =
      Body.success "lofi" none (normalizeLimit none) 0 []
        (some "No tracks found for this query.") :=
  empty_results_ok _ _ _ "lofi" rfl (by decide) rfl

/-- C8: when the upstream search call itself fails, the handler answers
500 with a fixed generic body that does not depend on the internal
error in any way. -/
theorem upstream_failure_generic
    (search : String → Int → Except String (List (Option Track)))
    (lookup : String → Except String SongInfo) (req : Request)
    (s e : String)
    (hq : req.q = QueryParam.str s) (hv : ¬(s = "" ∨ trimJS s = ""))
    (hs : search s (normalizeLimit req.limit) = Except.error e) :
    searchHandler search lookup req =
      ⟨500, Body.serverError "Internal Server Error"
        "An unexpected error occurred while processing the SoundCloud search.",
        true⟩ := by
  simp [searchHandler, hq, hv, hs]

/-- Witness for C8. -/
theorem upstream_failure_generic_witness :
    searchHandler (fun _ _ => Except.error "scraper exploded")
      (fun _ => Except.error "e") ⟨QueryParam.str "lofi", none⟩ =
      ⟨500, Body.serverError "Internal Server Error"
        "An unexpected error occurred while processing the SoundCloud search.",
        true⟩ :=
  upstream_failure_generic _ _ _ "lofi" "scraper exploded" rfl (by decide) rfl

/-- C1: for a valid query whose upstream search succeeds, the response
count equals the number of result records, the records are exactly the
per-candidate enrichments in candidate order, so the i-th record comes
from the i-th candidate no matter which lookups fail. -/
theorem search_preserves_candidates
    (search : String → Int → Except String (List (Option Track)))
    (lookup : String → Except String SongInfo) (req : Request)
    (s : String) (cands : List (Option Track))
    (hq : req.q = QueryParam.str s) (hv : ¬(s = "" ∨ trimJS s = ""))
    (hs : search s (normalizeLimit req.limit) = Except.ok cands) :
    (searchHandler search lookup req).status = 200 ∧
    (searchHandler search lookup req).body.countOf =
      some (searchHandler search lookup req).body.resultsOf.length ∧
    (searchHandler search lookup req).body.resultsOf.length = cands.length ∧
    (searchHandler search lookup req).body.resultsOf =
      List.map (processTrack lookup) cands ∧
    (∀ i (hi : i < (searchHandler search lookup req).body.resultsOf.length)
      (hc : i < cands.length),
      (searchHandler search lookup req).body.resultsOf.get ⟨i, hi⟩ =
        processTrack lookup (cands.get ⟨i, hc⟩)) := by
  by_cases hc0 : cands.length = 0
  · have hnil : cands = [] := List.length_eq_zero.mp hc0
    subst hnil
    simp [searchHandler, hq, hv, hs, Body.countOf, Body.resultsOf]
  · simp [searchHandler, hq, hv, hs, hc0, detailedResults,
      Body.countOf, Body.resultsOf, List.get_eq_getElem]

/-- Witness search capability for C1: two candidates, the second a null
array element. -/
def searchC1 : String → Int → Except String (List (Option Track)) :=
  fun _ _ => Except.ok
    [some ⟨some "a", some "u1", none, none, some 4000⟩, none]

/-- Witness lookup for C1: every detail lookup rejects. -/
def lookupC1 : String → Except String SongInfo :=
  fun _ => Except.error "timeout"

/-- Witness for C1. -/
theorem search_preserves_candidates_witness :
    (searchHandler searchC1 lookupC1 ⟨QueryParam.str "lofi", none⟩).status = 200 ∧
    (searchHandler searchC1 lookupC1 ⟨QueryParam.str "lofi", none⟩).body.countOf =
      some (searchHandler searchC1 lookupC1
        ⟨QueryParam.str "lofi", none⟩).body.resultsOf.length ∧
    (searchHandler searchC1 lookupC1
      ⟨QueryParam.str "lofi", none⟩).body.resultsOf.length =
      List.length [some (⟨some "a", some "u1", none, none, some 4000⟩ : Track), none] ∧
    (searchHandler searchC1 lookupC1 ⟨QueryParam.str "lofi", none⟩).body.resultsOf =
      List.map (processTrack lookupC1)
        [some ⟨some "a", some "u1", none, none, some 4000⟩, none] ∧
    (∀ i (hi : i < (searchHandler searchC1 lookupC1
        ⟨QueryParam.str "lofi", none⟩).body.resultsOf.length)
      (hc : i < List.length
        [some (⟨some "a", some "u1", none, none, some 4000⟩ : Track), none]),
      (searchHandler searchC1 lookupC1
        ⟨QueryParam.str "lofi", none⟩).body.resultsOf.get ⟨i, hi⟩ =
        processTrack lookupC1
          (List.get [some ⟨some "a", some "u1", none, none, some 4000⟩, none]
            ⟨i, hc⟩)) :=
  search_preserves_candidates searchC1 lookupC1 ⟨QueryParam.str "lofi", none⟩
    "lofi" [some ⟨some "a", some "u1", none, none, some 4000⟩, none]
    rfl (by decide) rfl

/-- C4: the limit actually used agrees with the spec policy (absent,
unparseable or nonpositive limits become 10; values above 50 are
clamped to 50; anything else is used as parsed), clamping still yields
HTTP 200, and the success body surfaces both the raw requested limit
and the processed limit. -/
theorem limit_normalized_and_surfaced
    (search : String → Int → Except String (List (Option Track)))
    (lookup : String → Except String SongInfo) (req : Request)
    (s : String) (cands : List (Option Track))
    (hq : req.q = QueryParam.str s) (hv : ¬(s = "" ∨ trimJS s = ""))
    (hs : search s (normalizeLimit req.limit) = Except.ok cands) :
    normalizeLimit req.limit = claimLimitPolicy req.limit ∧
    (searchHandler search lookup req).status = 200 ∧
    (searchHandler search lookup req).body.requestedOf = some req.limit ∧
    (searchHandler search lookup req).body.processedOf =
      some (normalizeLimit req.limit) := by
  refine ⟨?_, ?_⟩
  · cases req.limit <;> rfl
  · by_cases hc0 : cands.length = 0
    · have hnil : cands = [] := List.length_eq_zero.mp hc0
      subst hnil
      simp [searchHandler, hq, hv, hs, Body.requestedOf, Body.processedOf]
    · simp [searchHandler, hq, hv, hs, hc0, Body.requestedOf, Body.processedOf]

/-- Witness for C4 with an over-large requested limit. -/
theorem limit_normalized_and_surfaced_witness :
    normalizeLimit (some "999") = claimLimitPolicy (some "999") ∧
    (searchHandler (fun _ _ => Except.ok []) (fun _ => Except.error "e")
      ⟨QueryParam.str "jazz", some "999"⟩).status = 200 ∧
    (searchHandler (fun _ _ => Except.ok []) (fun _ => Except.error "e")
      ⟨QueryParam.str "jazz", some "999"⟩).body.requestedOf =
        some (some "999") ∧
    (searchHandler (fun _ _ => Except.ok []) (fun _ => Except.error "e")
      ⟨QueryParam.str "jazz", some "999"⟩).body.processedOf =
        some (normalizeLimit (some "999")) :=
  limit_normalized_and_surfaced (fun _ _ => Except.ok [])
    (fun _ => Except.error "e") ⟨QueryParam.str "jazz", some "999"⟩
    "jazz" [] rfl (by decide) rfl

/-- C3: a successful detail lookup produces a record whose fields
default as title to "Unknown Title", author to "Unknown Artist",
thumbnail to null, genre to "Unknown", publishedAt to "Unknown", whose
duration_seconds is the floor of the payload duration over 1000, and
whose url is the payload url, falling back to the candidate url when
the payload url is missing. -/
theorem success_lookup_defaults
    (lookup : String → Except String SongInfo) (t : Track) (si : SongInfo)
    (u : String) (hu : t.url = some u) (hne : u ≠ "")
    (hsi : lookup u = Except.ok si) :
    ((si.title = none ∨ si.title = some "") →
      (processTrack lookup (some t)).title = "Unknown Title") ∧
    (∀ s2, si.title = some s2 → s2 ≠ "" →
      (processTrack lookup (some t)).title = s2) ∧
    ((si.author.bind (·.name) = none ∨ si.author.bind (·.name) = some "") →
      (processTrack lookup (some t)).author = "Unknown Artist") ∧
    (∀ n, si.author.bind (·.name) = some n → n ≠ "" →
      (processTrack lookup (some t)).author = n) ∧
    ((si.thumbnail = none ∨ si.thumbnail = some "") →
      (processTrack lookup (some t)).thumbnail = none) ∧
    (∀ s2, si.thumbnail = some s2 → s2 ≠ "" →
      (processTrack lookup (some t)).thumbnail = some s2) ∧
    ((si.genre = none ∨ si.genre = some "") →
      (processTrack lookup (some t)).genre = "Unknown") ∧
    ((si.publishedAt = none ∨ si.publishedAt = some "") →
      (processTrack lookup (some t)).publishedAt = "Unknown") ∧
    (∀ d, si.duration = some d →
      (processTrack lookup (some t)).duration_seconds = Int.fdiv d 1000) ∧
    ((si.url = none ∨ si.url = some "") →
      (processTrack lookup (some t)).url = some u) ∧
    (∀ v, si.url = some v → v ≠ "" →
      (processTrack lookup (some t)).url = some v) ∧
    (processTrack lookup (some t)).fetchError = false := by
  have hfalsy : strFalsy ((some t).bind (·.url)) = false := by
    simp [strFalsy, hu, hne]
  have hkey : strOr t.url "" = u := by
    simp [strOr, hu, hne]
  have hr : processTrack lookup (some t) =
      { title := strOr si.title "Unknown Title"
        url := if strFalsy si.url then t.url else si.url
        author := strOr (si.author.bind (·.name)) "Unknown Artist"
        thumbnail := optOr si.thumbnail
        duration_seconds := durSecs si.duration
        genre := strOr si.genre "Unknown"
        publishedAt := strOr si.publishedAt "Unknown"
        fetchError := false
        errorMessage := none } := by
    simp only [processTrack, hfalsy, Bool.false_eq_true, if_false, hkey, hsi]
  rw [hr]
  refine ⟨?_, ?_, ?_, ?_, ?_, ?_, ?_, ?_, ?_, ?_, ?_, rfl⟩
  · rintro (h | h) <;> simp [strOr, h]
  · intro s2 h hne2
    simp [strOr, h, hne2]
  · rintro (h | h) <;> simp [strOr, h]
  · intro n h hne2
    simp [strOr, h, hne2]
  · rintro (h | h) <;> simp [optOr, strFalsy, h]
  · intro s2 h hne2
    simp [optOr, strFalsy, h, hne2]
  · rintro (h | h) <;> simp [strOr, h]
  · rintro (h | h) <;> simp [strOr, h]
  · intro d h
    by_cases hd : d = 0 <;> simp [durSecs, h, hd]
  · rintro (h | h) <;> simp [strFalsy, h, hu]
  · intro v h hne2
    simp [strFalsy, h, hne2]

/-- Witness detail payload for C3: genre and publishedAt missing,
thumbnail empty, duration 63999 ms, url present. -/
def siC3 : SongInfo :=
  ⟨some "Song", some "u2", some ⟨some "Ann"⟩, some "", some 63999, none,
    some ""⟩

/-- Witness lookup for C3. -/
def lookupC3 : String → Except String SongInfo :=
  fun _ => Except.ok siC3

/-- Witness for C3. -/
theorem success_lookup_defaults_witness :
    (processTrack lookupC3
      (some ⟨none, some "u1", none, none, none⟩)).title = "Song" ∧
    (processTrack lookupC3
      (some ⟨none, some "u1", none, none, none⟩)).author = "Ann" ∧
    (processTrack lookupC3
      (some ⟨none, some "u1", none, none, none⟩)).thumbnail = none ∧
    (processTrack lookupC3
      (some ⟨none, some "u1", none, none, none⟩)).genre = "Unknown" ∧
    (processTrack lookupC3
      (some ⟨none, some "u1", none, none, none⟩)).publishedAt = "Unknown" ∧
    (processTrack lookupC3
      (some ⟨none, some "u1", none, none, none⟩)).duration_seconds =
        Int.fdiv 63999 1000 ∧
    (processTrack lookupC3
      (some ⟨none, some "u1", none, none, none⟩)).url = some "u2" ∧
    (processTrack lookupC3
      (some ⟨none, some "u1", none, none, none⟩)).fetchError = false := by
  have h := success_lookup_defaults lookupC3
    ⟨none, some "u1", none, none, none⟩ siC3 "u1" rfl (by decide) rfl
  exact ⟨h.2.1 "Song" rfl (by decide), h.2.2.2.1 "Ann" rfl (by decide),
    h.2.2.2.2.1 (Or.inr rfl), h.2.2.2.2.2.2.1 (Or.inl rfl),
    h.2.2.2.2.2.2.2.1 (Or.inr rfl), h.2.2.2.2.2.2.2.2.1 63999 rfl,
    h.2.2.2.2.2.2.2.2.2.2.1 "u2" rfl (by decide),
    h.2.2.2.2.2.2.2.2.2.2.2⟩

/-- Unfolding lemma: the missing-url branch of `processTrack`. -/
theorem processTrack_missing (lookup : String → Except String SongInfo)
    (otrack : Option Track) (h : strFalsy (otrack.bind (·.url)) = true) :
    processTrack lookup otrack =
      { title := strOr (otrack.bind (·.title)) "Unknown Title (URL missing)"
        url := none
        author := strOr ((otrack.bind (·.author)).bind (·.name)) "Unknown Artist"
        thumbnail := optOr (otrack.bind (·.thumbnail))
        duration_seconds := durSecs (otrack.bind (·.duration))
        genre := "Unknown"
        publishedAt := "Unknown"
        fetchError := true
        errorMessage := some "Missing track URL in search result" } := by
  simp only [processTrack, h, if_true]

/-- Unfolding lemma: the failed-lookup branch of `processTrack`. -/
theorem processTrack_err (lookup : String → Except String SongInfo)
    (t : Track) (msg : String) (h : strFalsy t.url = false)
    (hl : lookup (strOr t.url "") = Except.error msg) :
    processTrack lookup (some t) =
      { title := strOr t.title "Unknown Title (fetch failed)"
        url := optOr t.url
        author := strOr (t.author.bind (·.name)) "Unknown Artist"
        thumbnail := optOr t.thumbnail
        duration_seconds := durSecs t.duration
        genre := "Unknown"
        publishedAt := "Unknown"
        fetchError := true
        errorMessage := some msg } := by
  have h2 : strFalsy ((some t).bind (·.url)) = false := by simpa using h
  simp only [processTrack, h2, Bool.false_eq_true, if_false, hl]

/-- Unfolding lemma: the successful-lookup branch of `processTrack`. -/
theorem processTrack_ok (lookup : String → Except String SongInfo)
    (t : Track) (si : SongInfo) (h : strFalsy t.url = false)
    (hl : lookup (strOr t.url "") = Except.ok si) :
    processTrack lookup (some t) =
      { title := strOr si.title "Unknown Title"
        url := if strFalsy si.url then t.url else si.url
        author := strOr (si.author.bind (·.name)) "Unknown Artist"
        thumbnail := optOr si.thumbnail
        duration_seconds := durSecs si.duration
        genre := strOr si.genre "Unknown"
        publishedAt := strOr si.publishedAt "Unknown"
        fetchError := false
        errorMessage := none } := by
  have h2 : strFalsy ((some t).bind (·.url)) = false := by simpa using h
  simp only [processTrack, h2, Bool.false_eq_true, if_false, hl]

/-- C7: a candidate without a (truthy) url gets no detail lookup at all
-- the record is independent of the lookup capability -- and is
synthesized from the candidate fields with `fetchError` set and the
descriptive message attached. -/
theorem missing_url_no_lookup
    (lookupA lookupB : String → Except String SongInfo)
    (otrack : Option Track)
    (h : strFalsy (otrack.bind (·.url)) = true) :
    processTrack lookupA otrack = processTrack lookupB otrack ∧
    (processTrack lookupA otrack).fetchError = true ∧
    (processTrack lookupA otrack).errorMessage =
      some "Missing track URL in search result" ∧
    (processTrack lookupA otrack).url = none ∧
    (∀ t s2, otrack = some t → t.title = some s2 → s2 ≠ "" →
      (processTrack lookupA otrack).title = s2) ∧
    (∀ t n, otrack = some t → t.author.bind (·.name) = some n → n ≠ "" →
      (processTrack lookupA otrack).author = n) ∧
    (∀ t s2, otrack = some t → t.thumbnail = some s2 → s2 ≠ "" →
      (processTrack lookupA otrack).thumbnail = some s2) ∧
    (∀ t d, otrack = some t → t.duration = some d → d ≠ 0 →
      (processTrack lookupA otrack).duration_seconds = Int.fdiv d 1000) := by
  rw [processTrack_missing lookupA otrack h, processTrack_missing lookupB otrack h]
  refine ⟨rfl, rfl, rfl, rfl, ?_, ?_, ?_, ?_⟩
  · intro t s2 ht hts hne2
    subst ht
    simp [strOr, hts, hne2]
  · intro t n ht htn hne2
    subst ht
    simp [strOr, htn, hne2]
  · intro t s2 ht hts hne2
    subst ht
    simp [optOr, strFalsy, hts, hne2]
  · intro t d ht htd hd
    subst ht
    simp [durSecs, htd, hd]

/-- Witness for C7: a candidate with an empty-string url. -/
theorem missing_url_no_lookup_witness :
    processTrack (fun _ => Except.ok siC3)
      (some ⟨some "T", some "", some ⟨some "A"⟩, some "th", some 1500⟩) =
      processTrack (fun _ => Except.error "down")
        (some ⟨some "T", some "", some ⟨some "A"⟩, some "th", some 1500⟩) ∧
    (processTrack (fun _ => Except.ok siC3)
      (some ⟨some "T", some "", some ⟨some "A"⟩, some "th", some 1500⟩)).fetchError
        = true ∧
    (processTrack (fun _ => Except.ok siC3)
      (some ⟨some "T", some "", some ⟨some "A"⟩, some "th", some 1500⟩)).errorMessage
        = some "Missing track URL in search result" ∧
    (processTrack (fun _ => Except.ok siC3)
      (some ⟨some "T", some "", some ⟨some "A"⟩, some "th", some 1500⟩)).title
        = "T" ∧
    (processTrack (fun _ => Except.ok siC3)
      (some ⟨some "T", some "", some ⟨some "A"⟩, some "th", some 1500⟩)).author
        = "A" ∧
    (processTrack (fun _ => Except.ok siC3)
      (some ⟨some "T", some "", some ⟨some "A"⟩, some "th", some 1500⟩)).duration_seconds
        = Int.fdiv 1500 1000 := by
  have h := missing_url_no_lookup (fun _ => Except.ok siC3)
    (fun _ => Except.error "down")
    (some ⟨some "T", some "", some ⟨some "A"⟩, some "th", some 1500⟩)
    (by decide)
  exact ⟨h.1, h.2.1, h.2.2.1,
    h.2.2.2.2.1 _ "T" rfl rfl (by decide),
    h.2.2.2.2.2.1 _ "A" rfl rfl (by decide),
    h.2.2.2.2.2.2.2 _ 1500 rfl rfl (by decide)⟩

/-- C2 counterexample: with one candidate whose title is missing and
whose lookup rejects with "boom", the produced record is not the one
the claim predicts from the success-path defaulting rules -- the code
defaults the title to "Unknown Title (fetch failed)" instead of
"Unknown Title". -/
theorem one_failed_lookup_counterexample :
    (searchHandler
        (fun _ _ => Except.ok [some ⟨none, some "u", none, none, none⟩])
        (fun _ => Except.error "boom")
        ⟨QueryParam.str "lofi", none⟩).body.resultsOf ≠
      [claimFailureRecord ⟨none, some "u", none, none, none⟩ "boom"] ∧
    (searchHandler
        (fun _ _ => Except.ok [some ⟨none, some "u", none, none, none⟩])
        (fun _ => Except.error "boom")
        ⟨QueryParam.str "lofi", none⟩).body.resultsOf.map (·.title) =
      ["Unknown Title (fetch failed)"] ∧
    (claimFailureRecord ⟨none, some "u", none, none, none⟩ "boom").title =
      "Unknown Title" := by
  refine ⟨by decide, by decide, by decide⟩

/-- C2 (amended): for a valid query with candidates of which exactly
one has a rejecting detail lookup, the handler still answers 200 with
one record per candidate in order; the failing record is synthesized
from that candidate with the failure message and `fetchError` set,
defaulting a missing title to "Unknown Title (fetch failed)" (not the
success-path "Unknown Title") and the other fields by the success-path
rules; every other record has `fetchError` false. -/
theorem one_failed_lookup
    (search : String → Int → Except String (List (Option Track)))
    (lookup : String → Except String SongInfo) (req : Request)
    (s : String) (cands : List (Option Track)) (k : Nat) (t : Track)
    (msg : String)
    (hq : req.q = QueryParam.str s) (hv : ¬(s = "" ∨ trimJS s = ""))
    (hs : search s (normalizeLimit req.limit) = Except.ok cands)
    (hk : k < cands.length)
    (hkt : cands.get ⟨k, hk⟩ = some t)
    (hturl : strFalsy t.url = false)
    (hfail : lookup (strOr t.url "") = Except.error msg)
    (hok : ∀ j (hj : j < cands.length), j ≠ k →
      ∃ t2 si, cands.get ⟨j, hj⟩ = some t2 ∧ strFalsy t2.url = false ∧
        lookup (strOr t2.url "") = Except.ok si) :
    (searchHandler search lookup req).status = 200 ∧
    (searchHandler search lookup req).body.resultsOf.length = cands.length ∧
    (∀ hk2 : k < (searchHandler search lookup req).body.resultsOf.length,
      (searchHandler search lookup req).body.resultsOf.get ⟨k, hk2⟩ =
        { title := strOr t.title "Unknown Title (fetch failed)"
          url := optOr t.url
          author := strOr (t.author.bind (·.name)) "Unknown Artist"
          thumbnail := optOr t.thumbnail
          duration_seconds := durSecs t.duration
          genre := "Unknown"
          publishedAt := "Unknown"
          fetchError := true
          errorMessage := some msg }) ∧
    (∀ j (hj : j < (searchHandler search lookup req).body.resultsOf.length),
      j ≠ k →
      ((searchHandler search lookup req).body.resultsOf.get ⟨j, hj⟩).fetchError
        = false) := by
  have hc0 : ¬ cands.length = 0 := by omega
  have hres : (searchHandler search lookup req).body.resultsOf =
      List.map (processTrack lookup) cands := by
    simp [searchHandler, hq, hv, hs, hc0, detailedResults, Body.resultsOf]
  have hstat : (searchHandler search lookup req).status = 200 := by
    simp [searchHandler, hq, hv, hs, hc0]
  have hlen : (searchHandler search lookup req).body.resultsOf.length =
      cands.length := by
    rw [hres, List.length_map]
  refine ⟨hstat, hlen, ?_, ?_⟩
  · intro hk2
    have hget : (searchHandler search lookup req).body.resultsOf.get ⟨k, hk2⟩ =
        processTrack lookup (cands.get ⟨k, hk⟩) := by
      simp only [hres, List.get_eq_getElem, List.getElem_map]
    rw [hget, hkt, processTrack_err lookup t msg hturl hfail]
  · intro j hj hjk
    have hj2 : j < cands.length := by rw [← hlen]; exact hj
    obtain ⟨t2, si, hjt, hturl2, hok2⟩ := hok j hj2 hjk
    have hget : (searchHandler search lookup req).body.resultsOf.get ⟨j, hj⟩ =
        processTrack lookup (cands.get ⟨j, hj2⟩) := by
      simp only [hres, List.get_eq_getElem, List.getElem_map]
    rw [hget, hjt, processTrack_ok lookup t2 si hturl2 hok2]

/-- Witness candidates for C2: the first lookup fails, the second
succeeds. -/
def candsC2 : List (Option Track) :=
  [some ⟨none, some "uA", none, none, none⟩,
   some ⟨some "B", some "uB", none, none, none⟩]

/-- Witness search capability for C2. -/
def searchC2 : String → Int → Except String (List (Option Track)) :=
  fun _ _ => Except.ok candsC2

/-- Witness lookup for C2: rejects only the first candidate url. -/
def lookupC2 : String → Except String SongInfo :=
  fun u => if u = "uA" then Except.error "boom" else Except.ok siC3

/-- Witness for C2 (amended). -/
theorem one_failed_lookup_witness :
    (searchHandler searchC2 lookupC2 ⟨QueryParam.str "lofi", none⟩).status
      = 200 ∧
    (searchHandler searchC2 lookupC2
      ⟨QueryParam.str "lofi", none⟩).body.resultsOf.length = candsC2.length ∧
    (∀ hk2 : 0 < (searchHandler searchC2 lookupC2
        ⟨QueryParam.str "lofi", none⟩).body.resultsOf.length,
      (searchHandler searchC2 lookupC2
        ⟨QueryParam.str "lofi", none⟩).body.resultsOf.get ⟨0, hk2⟩ =
        { title := strOr (none : Option String) "Unknown Title (fetch failed)"
          url := optOr (some "uA")
          author := strOr ((none : Option Author).bind (·.name)) "Unknown Artist"
          thumbnail := optOr none
          duration_seconds := durSecs none
          genre := "Unknown"
          publishedAt := "Unknown"
          fetchError := true
          errorMessage := some "boom" }) ∧
    (∀ j (hj : j < (searchHandler searchC2 lookupC2
        ⟨QueryParam.str "lofi", none⟩).body.resultsOf.length), j ≠ 0 →
      ((searchHandler searchC2 lookupC2
        ⟨QueryParam.str "lofi", none⟩).body.resultsOf.get ⟨j, hj⟩).fetchError
        = false) :=
  one_failed_lookup searchC2 lookupC2 ⟨QueryParam.str "lofi", none⟩ "lofi"
    candsC2 0 ⟨none, some "uA", none, none, none⟩ "boom"
    rfl (by decide) rfl (by decide) rfl (by decide) rfl
    (by
      intro j hj hjk
      match j, hj with
      | 0, _ => exact absurd rfl hjk
      | 1, _ =>
        exact ⟨⟨some "B", some "uB", none, none, none⟩, siC3, rfl, by decide,
          rfl⟩
      | n + 2, hj => exact absurd hj (by simp [candsC2]))

/-- Nonnegative optional durations give nonnegative second counts. -/
theorem durSecs_nonneg (d : Option Int) (h : 0 ≤ d.getD 0) :
    0 ≤ durSecs d := by
  cases d with
  | none => simp [durSecs]
  | some v =>
    by_cases hv : v = 0
    · simp [durSecs, hv]
    · simp only [durSecs, hv, if_false]
      simp only [Option.getD_some] at h
      rw [Int.fdiv_eq_ediv _ (by decide)]
      exact Int.ediv_nonneg h (by decide)

/-- C9 counterexample: a detail payload carrying a negative duration
(-500 ms) yields duration_seconds = -1, which is negative. -/
theorem duration_seconds_negative_counterexample :
    (processTrack
      (fun _ => Except.ok ⟨none, none, none, none, some (-500), none, none⟩)
      (some ⟨none, some "u", none, none, none⟩)).duration_seconds = -1 ∧
    (processTrack
      (fun _ => Except.ok ⟨none, none, none, none, some (-500), none, none⟩)
      (some ⟨none, some "u", none, none, none⟩)).duration_seconds < 0 := by
  refine ⟨by decide, by decide⟩

/-- C9 (amended): whenever every duration the lookup can report and the
candidate duration are nonnegative -- as for real millisecond counts --
every record produced by the per-candidate enrichment has a
nonnegative integer duration_seconds. -/
theorem duration_seconds_nonneg
    (lookup : String → Except String SongInfo) (otrack : Option Track)
    (hl : ∀ u si, lookup u = Except.ok si → 0 ≤ si.duration.getD 0)
    (ht : 0 ≤ ((otrack.bind (·.duration)).getD 0)) :
    0 ≤ (processTrack lookup otrack).duration_seconds := by
  by_cases hm : strFalsy (otrack.bind (·.url)) = true
  · rw [processTrack_missing lookup otrack hm]
    exact durSecs_nonneg _ ht
  · cases otrack with
    | none => exact absurd rfl hm
    | some t =>
      have hm2 : strFalsy t.url = false := by
        simpa using Bool.of_not_eq_true hm
      have ht2 : 0 ≤ t.duration.getD 0 := by simpa using ht
      cases hlook : lookup (strOr t.url "") with
      | ok si =>
        rw [processTrack_ok lookup t si hm2 hlook]
        exact durSecs_nonneg _ (hl _ _ hlook)
      | error msg =>
        rw [processTrack_err lookup t msg hm2 hlook]
        exact durSecs_nonneg _ ht2

/-- Witness for C9 (amended). -/
theorem duration_seconds_nonneg_witness :
    0 ≤ (processTrack lookupC3
      (some ⟨none, some "u1", none, none, some 4000⟩)).duration_seconds :=
  duration_seconds_nonneg lookupC3 (some ⟨none, some "u1", none, none, some 4000⟩)
    (by intro u si h; cases h; decide) (by decide)

/-- A decimal digit is not whitespace. -/
theorem digit_not_space (c : Char) (h : isDigitChar c = true) :
    isSpaceChar c = false := by
  simp only [isDigitChar, Bool.and_eq_true, decide_eq_true_eq] at h
  simp only [isSpaceChar, Bool.or_eq_false_iff, decide_eq_false_iff_not]
  omega

/-- A decimal digit is not the minus sign. -/
theorem digit_ne_dash (c : Char) (h : isDigitChar c = true) : ¬ c = '-' := by
  intro he
  subst he
  exact absurd h (by decide)

/-- A decimal digit is not the plus sign. -/
theorem digit_ne_plus (c : Char) (h : isDigitChar c = true) : ¬ c = '+' := by
  intro he
  subst he
  exact absurd h (by decide)

/-- `takeWhile` cuts exactly at the end of an all-true prefix when the
remainder starts with a failing element. -/
theorem takeWhile_append_all (p : Char → Bool) :
    ∀ (ds rest : List Char), (∀ c ∈ ds, p c = true) →
    (∀ c, rest.head? = some c → p c = false) →
    (ds ++ rest).takeWhile p = ds := by
  intro ds
  induction ds with
  | nil =>
    intro rest _ hr
    cases rest with
    | nil => rfl
    | cons c l => simp [List.takeWhile_cons, hr c rfl]
  | cons d ds1 ih =>
    intro rest hd hr
    have h0 : p d = true := hd d (List.mem_cons_self d ds1)
    simp only [List.cons_append, List.takeWhile_cons, h0, if_true,
      List.cons.injEq, true_and]
    exact ih rest (fun c hc => hd c (List.mem_cons_of_mem d hc)) hr

/-- Evaluation of `parseIntJS` on a string made of a nonempty digit
prefix followed by a non-digit remainder. -/
theorem parseIntJS_digits (d0 : Char) (ds1 rest : List Char)
    (hd : ∀ c ∈ d0 :: ds1, isDigitChar c = true)
    (hrest : ∀ c, rest.head? = some c → isDigitChar c = false) :
    parseIntJS ⟨d0 :: ds1 ++ rest⟩ =
      some (Int.ofNat
        ((d0 :: ds1).foldl (fun a c => a * 10 + (c.toNat - 48)) 0)) := by
  have h0 : isDigitChar d0 = true := hd d0 (List.mem_cons_self d0 ds1)
  have hsp : isSpaceChar d0 = false := digit_not_space d0 h0
  have hdash : ¬ d0 = '-' := digit_ne_dash d0 h0
  have hplus : ¬ d0 = '+' := digit_ne_plus d0 h0
  have htake : ((d0 :: ds1) ++ rest).takeWhile isDigitChar = d0 :: ds1 :=
    takeWhile_append_all isDigitChar (d0 :: ds1) rest hd hrest
  simp only [List.cons_append] at htake
  simp only [parseIntJS, List.cons_append, List.dropWhile_cons, hsp,
    Bool.false_eq_true, if_false, hdash, hplus, or_self, htake, one_mul]
  simp

/-- C10: a limit string made of a digit prefix followed by non-digit
characters parses to the value of the digit prefix, so the handler
normalizes it exactly as it would the bare prefix. -/
theorem parseInt_numeric_prefix (ds rest : List Char) (hne : ds ≠ [])
    (hdig : ∀ c ∈ ds, isDigitChar c = true)
    (hrest : ∀ c, rest.head? = some c → isDigitChar c = false) :
    parseIntJS ⟨ds ++ rest⟩ =
      some (Int.ofNat (ds.foldl (fun a c => a * 10 + (c.toNat - 48)) 0)) ∧
    parseIntJS ⟨ds ++ rest⟩ = parseIntJS ⟨ds⟩ ∧
    normalizeLimit (some ⟨ds ++ rest⟩) = normalizeLimit (some ⟨ds⟩) := by
  obtain ⟨d0, ds1, rfl⟩ : ∃ d0 ds1, ds = d0 :: ds1 := by
    cases ds with
    | nil => exact absurd rfl hne
    | cons d0 ds1 => exact ⟨d0, ds1, rfl⟩
  have h1 := parseIntJS_digits d0 ds1 rest hdig hrest
  have h2 := parseIntJS_digits d0 ds1 [] hdig (fun c hc => nomatch hc)
  simp only [List.append_nil] at h2
  have h3 : parseIntJS ⟨d0 :: ds1 ++ rest⟩ = parseIntJS ⟨d0 :: ds1⟩ :=
    h1.trans h2.symm
  refine ⟨h1, h3, ?_⟩
  simp only [normalizeLimit, Option.some_bind, h3]

/-- Witness for C10: "25abc" is processed as limit 25. -/
theorem parseInt_numeric_prefix_witness :
    normalizeLimit (some "25abc") = 25 ∧ parseIntJS "25abc" = some 25 := by
  have h := parseInt_numeric_prefix ['2', '5'] ['a', 'b', 'c']
    (by decide) (by decide) (by decide)
  have h2 : ("25abc" : String) = ⟨['2', '5'] ++ ['a', 'b', 'c']⟩ := rfl
  constructor
  · rw [h2, h.2.2]
    decide
  · rw [h2, h.1]
    decide
